import Mathlib

set_option autoImplicit false
set_option maxHeartbeats 1000000

/-!
Shallow embedding of the Infinite Cloud bot backend core
(src/backend/src/repositories/types/filesystem.rs,
src/backend/src/repositories/types/chat_session.rs,
src/backend/src/repositories/types/command.rs,
src/backend/src/services/chat_session_service.rs,
src/backend/src/utils/path.rs, src/backend/src/utils/defaults.rs,
src/backend/src/utils/reply.rs).

Rust paths (std::path::PathBuf) are embedded in their component view: a flag
recording whether the textual path begins with the separator, plus the list
of normal components (a component is a plain segment name: it contains no
separator and is not empty and not the "." component, which the Rust
components() iterator strips; the ".." component is representable and is
treated by the embedded operations exactly as Rust treats the ParentDir
component).  BTreeMap is embedded as a key-sorted association list.  The
ambient ic time (utils::get_current_time) is passed explicitly as a `now`
argument to every operation that creates nodes.  Mutation through `&mut
self` is embedded by state passing: every mutating operation returns the
result together with the updated value, so mutations that happen before an
error are kept, exactly as in the Rust code.
-/

namespace InfiniteCloud

/-! Kernel-computable string helpers: the Lean core versions of split,
starts-with, ordering and intercalation are compiled over byte positions
and do not reduce inside the kernel, so the embedding uses these
character-list equivalents (String.data of a literal reduces). -/

/-- Split a character list on a separator character. -/
def splitOnCharAux (c : Char) : List Char → List (List Char)
  | [] => [[]]
  | x :: xs =>
      let r := splitOnCharAux c xs
      if x = c then [] :: r
      else
        match r with
        | [] => [[x]]
        | y :: ys => (x :: y) :: ys

/-- String::split on a one-character separator (also String.splitOn for a
one-character pattern). -/
def splitOnChar (s : String) (c : Char) : List String :=
  (splitOnCharAux c s.data).map String.mk

/-- Is the first list a leading segment of the second? -/
def charsLead : List Char → List Char → Bool
  | [], _ => true
  | _ :: _, [] => false
  | p :: ps, c :: cs => p = c && charsLead ps cs

/-- String::starts_with. -/
def strStarts (s pre : String) : Bool := charsLead pre.data s.data

/-- String intercalation with a one-character separator. -/
def strIntercalate (sep : Char) (parts : List String) : String :=
  String.mk (List.intercalate [sep] (parts.map String.data))

/-- The byte order on strings used by BTreeMap keys (lexicographic on the
character lists, which agrees with the byte order on the involved keys). -/
def strLtB (a b : String) : Bool := a.data < b.data

/-- Component view of a Rust std path, see the header comment. -/
structure FsPath where
  isAbs : Bool
  segments : List String
deriving DecidableEq, Repr

/-- utils::filesystem::root_path from utils/defaults.rs: the path "/". -/
def rootPath : FsPath := ⟨true, []⟩

/-- utils::path::is_absolute: the textual path starts with the separator. -/
def is_absolute (p : FsPath) : Bool := p.isAbs

/-- Path::parent: drops the last component; none for the root and for the
empty relative path. -/
def FsPath.parent (p : FsPath) : Option FsPath :=
  if p.segments.isEmpty then none
  else some ⟨p.isAbs, p.segments.dropLast⟩

/-- Path::file_name: the last component, unless it is the ".." component. -/
def FsPath.file_name (p : FsPath) : Option String :=
  match p.segments.getLast? with
  | none => none
  | some s => if s = ".." then none else some s

/-- components().skip(1) as used by the walks in filesystem.rs: for an
absolute path the skipped component is the root component, for a relative
path it is the first real segment. -/
def componentsSkip1 (p : FsPath) : List String :=
  if p.isAbs then p.segments else p.segments.drop 1

/-- PathBuf::from on a raw string (component view). -/
def parsePath (s : String) : FsPath :=
  ⟨strStarts s "/", (splitOnChar s '/').filter (fun seg => seg != "" && seg != ".")⟩

/-- Path::join: an absolute argument replaces the whole path, otherwise its
components are appended. -/
def FsPath.join (p : FsPath) (s : String) : FsPath :=
  if strStarts s "/" then parsePath s
  else ⟨p.isAbs, p.segments ++ (splitOnChar s '/').filter (fun seg => seg != "" && seg != ".")⟩

/-- PathBuf::set_file_name: pop the last component when there is a file
name, then push the argument. -/
def FsPath.set_file_name (p : FsPath) (s : String) : FsPath :=
  match p.file_name with
  | some _ => FsPath.join ⟨p.isAbs, p.segments.dropLast⟩ s
  | none => p.join s

/-- Path::extension restricted to one file name: the portion after the
final dot, none when there is no embedded dot or when the name begins with
the only dot. -/
def fileExtensionOf (name : String) : Option String :=
  match splitOnChar name '.' with
  | [] => none
  | [_] => none
  | ["", _] => none
  | parts => some ((parts.getLast?).getD "")

/-- Path::file_stem restricted to one file name: the portion before the
final dot, following the same hidden-file rule as fileExtensionOf. -/
def fileStemOf (name : String) : String :=
  match splitOnChar name '.' with
  | [] => name
  | [_] => name
  | ["", _] => name
  | parts => strIntercalate '.' parts.dropLast

/-- Path::extension. -/
def FsPath.extension (p : FsPath) : Option String :=
  match p.file_name with
  | none => none
  | some name => fileExtensionOf name

/-- PathBuf::with_extension: replaces the extension of the file name; an
empty extension just removes it; a path without a file name is returned
unchanged. -/
def FsPath.with_extension (p : FsPath) (ext : String) : FsPath :=
  match p.file_name with
  | none => p
  | some name =>
      let stem := fileStemOf name
      let newName := if ext = "" then stem else stem ++ "." ++ ext
      ⟨p.isAbs, p.segments.dropLast ++ [newName]⟩

/-- to_string_lossy of the component view. -/
def FsPath.render (p : FsPath) : String :=
  if p.isAbs then "/" ++ strIntercalate '/' p.segments
  else strIntercalate '/' p.segments

/-- TG_FILE_MIME_TYPE_PREFIX from utils/defaults.rs. -/
def tgMimeMarker : String := "tg+"

/-- Modelled from the spec: the MIME to extension mapping of the external
mime2ext crate ("the extension is derived by a MIME to extension mapping,
defaulting to no extension if unmapped"); the concrete pairs are the ones
exercised by the repository (tests in filesystem.rs and spec section 8). -/
def mime2ext (mime : String) : Option String :=
  if mime = "image/png" then some "png"
  else if mime = "image/jpeg" then some "jpg"
  else if mime = "text/plain" then some "txt"
  else if mime = "application/sql" then some "sql"
  else if mime = "application/mp4" then some "mp4"
  else none

/-- FileSystemNode from filesystem.rs. -/
inductive FileSystemNode where
  | file (message_id : Int) (created_at : Nat) (size : Nat) (mime_type : Option String)
  | directory (created_at : Nat) (nodes : List (String × FileSystemNode))

/-- FileSystemNodes: the children map of a Directory, embedded as a
key-sorted association list (BTreeMap). -/
abbrev FileSystemNodes := List (String × FileSystemNode)

/-- FileSystemNode::new_file (created_at is the ambient time). -/
def FileSystemNode.new_file (now : Nat) (message_id : Int) (size : Nat)
    (mime_type : Option String) : FileSystemNode :=
  .file message_id now size mime_type

/-- FileSystemNode::new_directory. -/
def FileSystemNode.new_directory (now : Nat) : FileSystemNode :=
  .directory now []

/-- FileSystemNode::is_directory. -/
def FileSystemNode.is_directory : FileSystemNode → Bool
  | .directory _ _ => true
  | .file _ _ _ _ => false

/-- FileSystemNode::is_file. -/
def FileSystemNode.is_file : FileSystemNode → Bool
  | .directory _ _ => false
  | .file _ _ _ _ => true

/-- FileSystemNode::file_message_id. -/
def FileSystemNode.file_message_id : FileSystemNode → Option Int
  | .file message_id _ _ _ => some message_id
  | .directory _ _ => none

/-- FileSystemNode::file_mime_type. -/
def FileSystemNode.file_mime_type : FileSystemNode → Option String
  | .file _ _ _ mime_type => mime_type
  | .directory _ _ => none

/-- BTreeMap::get. -/
def lookupNode : FileSystemNodes → String → Option FileSystemNode
  | [], _ => none
  | (k, v) :: rest, key => if k = key then some v else lookupNode rest key

/-- BTreeMap::insert (also the write half of entry().or_insert_with):
replaces the value at an existing key in place, otherwise inserts the new
binding at its sorted position. -/
def insertEntry : FileSystemNodes → String → FileSystemNode → FileSystemNodes
  | [], key, v => [(key, v)]
  | (k, w) :: rest, key, v =>
      if k = key then (key, v) :: rest
      else if strLtB key k then (key, v) :: (k, w) :: rest
      else (k, w) :: insertEntry rest key v

/-- BTreeMap::remove (association-list version). -/
def removeEntry : FileSystemNodes → String → FileSystemNodes
  | [], _ => []
  | (k, w) :: rest, key => if k = key then rest else (k, w) :: removeEntry rest key

/-- FileSystemNode::ls_directories. -/
def FileSystemNode.ls_directories : FileSystemNode → Except String (List String)
  | .directory _ ns => .ok ((ns.filter (fun e => e.2.is_directory)).map Prod.fst)
  | .file _ _ _ _ => .error "Not a directory"

/-- FileSystemNode::ls_files. -/
def FileSystemNode.ls_files : FileSystemNode → Except String (List String)
  | .directory _ ns => .ok ((ns.filter (fun e => e.2.is_file)).map Prod.fst)
  | .file _ _ _ _ => .error "Not a directory"

/-- FileSystem from filesystem.rs. -/
structure FileSystem where
  root : FileSystemNode

/-- FileSystem::default: the four fixed top-level directories, inserted in
the order of the Rust code. -/
def FileSystem.defaultFs (now : Nat) : FileSystem :=
  ⟨.directory now
    (insertEntry
      (insertEntry
        (insertEntry
          (insertEntry [] "Documents" (FileSystemNode.new_directory now))
          "Images" (FileSystemNode.new_directory now))
        "Videos" (FileSystemNode.new_directory now))
      "Trash" (FileSystemNode.new_directory now))⟩

/-- The loop body of FileSystem::get_node: walk the components, descending
through directories; reaching a File before the components are exhausted
returns that File; a missing child is "Path not found". -/
def getNodeAux : FileSystemNode → List String → Except String FileSystemNode
  | current, [] => .ok current
  | .directory _ ns, comp :: rest =>
      match lookupNode ns comp with
      | none => .error "Path not found"
      | some child => getNodeAux child rest
  | f@(.file _ _ _ _), _ :: _ => .ok f

/-- FileSystem::get_node. -/
def FileSystem.get_node (fs : FileSystem) (path : FsPath) : Except String FileSystemNode :=
  if is_absolute path then getNodeAux fs.root path.segments
  else .error "Path must be absolute"

/-- The common walk of FileSystem::insert_node and FileSystem::remove_node:
descend along the parent components, creating every missing intermediate
directory (entry().or_insert_with) as the Rust loop does, then run the
final map action in the reached directory.  Intermediate creations are kept
even when a later step fails, exactly as with `&mut self` in Rust. -/
def walkParent {α : Type} (now : Nat)
    (final : FileSystemNodes → Except String α × FileSystemNodes) :
    List String → FileSystemNode → Except String α × FileSystemNode
  | [], .directory c ns =>
      let res := final ns
      (res.1, .directory c res.2)
  | [], n@(.file _ _ _ _) => (.error "Parent is not a directory", n)
  | _ :: _, n@(.file _ _ _ _) => (.error "Parent is not a directory", n)
  | comp :: rest, .directory c ns =>
      let child := (lookupNode ns comp).getD (FileSystemNode.new_directory now)
      let res := walkParent now final rest child
      (res.1, .directory c (insertEntry ns comp res.2))

/-- FileSystem::insert_node. -/
def FileSystem.insert_node (now : Nat) (fs : FileSystem) (path : FsPath)
    (node : FileSystemNode) : Except String Unit × FileSystem :=
  match path.parent with
  | none => (.error "Invalid path", fs)
  | some par =>
      let res := walkParent now
        (fun ns =>
          match path.file_name with
          | none => (.error "Invalid file name", ns)
          | some key => (.ok (), insertEntry ns key node))
        (componentsSkip1 par) fs.root
      (res.1, ⟨res.2⟩)

/-- FileSystem::remove_node. -/
def FileSystem.remove_node (now : Nat) (fs : FileSystem) (path : FsPath) :
    Except String FileSystemNode × FileSystem :=
  match path.parent with
  | none => (.error "Invalid path", fs)
  | some par =>
      let res := walkParent now
        (fun ns =>
          match path.file_name with
          | none => (.error "Invalid file name", ns)
          | some key =>
              match lookupNode ns key with
              | none => (.error "Node not found", ns)
              | some n => (.ok n, removeEntry ns key))
        (componentsSkip1 par) fs.root
      (res.1, ⟨res.2⟩)

/-- FileSystem::mkdir. -/
def FileSystem.mkdir (now : Nat) (fs : FileSystem) (path : FsPath) :
    Except String Unit × FileSystem :=
  fs.insert_node now path (FileSystemNode.new_directory now)

/-- Does the parent walk from this node along these components meet an
existing File node (including the starting node itself)?  Missing children
are created as fresh directories by the walk, so they never contribute. -/
def parentWalkHitsFile : FileSystemNode → List String → Bool
  | .file _ _ _ _, _ => true
  | .directory _ _, [] => false
  | .directory _ ns, comp :: rest =>
      match lookupNode ns comp with
      | none => false
      | some child => parentWalkHitsFile child rest

/-- The final path computed by FileSystem::create_file_from_node before the
insertion: keep an existing extension; otherwise, for a tg+ pseudo mime the
whole mime string becomes the extension, else the mime2ext mapping is used
(empty, hence no extension, when unmapped). -/
def finalCreatePath (path : FsPath) (file_node : FileSystemNode) : FsPath :=
  if path.extension.isNone then
    match file_node.file_mime_type with
    | some ext0 =>
        let ext := if strStarts ext0 tgMimeMarker then ext0 else ((mime2ext ext0).getD "")
        path.with_extension ext
    | none => path
  else path

/-- FileSystem::create_file_from_node. -/
def FileSystem.create_file_from_node (now : Nat) (fs : FileSystem) (path : FsPath)
    (file_node : FileSystemNode) : Except String FsPath × FileSystem :=
  let p := finalCreatePath path file_node
  let res := fs.insert_node now p file_node
  match res.1 with
  | .ok _ => (.ok p, res.2)
  | .error e => (.error e, res.2)

/-- FileSystem::mv: remove at `from`, then insert at `to`; the first error
short-circuits, keeping the mutations already made. -/
def FileSystem.mv (now : Nat) (fs : FileSystem) (from_path to_path : FsPath) :
    Except String Unit × FileSystem :=
  match fs.remove_node now from_path with
  | (.error e, fs') => (.error e, fs')
  | (.ok node, fs') => fs'.insert_node now to_path node

/-! Chat session layer (chat_session.rs). -/

/-- ChatSessionWaitReply from chat_session.rs. -/
inductive ChatSessionWaitReply where
  | DirectoryName
  | FileName

/-- ChatSessionAction from chat_session.rs: both the persisted pending
action of a session and the decoded callback-query trigger. -/
inductive ChatSessionAction where
  | MkDir (w : Option ChatSessionWaitReply)
  | SaveFile (n : Option FileSystemNode) (w : Option ChatSessionWaitReply)
  | CurrentDir
  | ParentDir
  | DeleteDir
  | Explorer
  | RenameFile (w : Option ChatSessionWaitReply)
  | MoveFile (p : Option FsPath)
  | DeleteFile
  | FileOrDir (p : FsPath)
  | Back

/-- Display for ChatSessionAction (the callback token encoding). -/
def ChatSessionAction.toTokenString : ChatSessionAction → String
  | .MkDir _ => "mkdir-action"
  | .SaveFile _ _ => "save-file-action"
  | .CurrentDir => "."
  | .ParentDir => ".."
  | .DeleteDir => "delete-dir-action"
  | .Explorer => "explorer-action"
  | .RenameFile _ => "rename-file-action"
  | .MoveFile _ => "move-file-action"
  | .DeleteFile => "delete-file-action"
  | .FileOrDir p => p.render
  | .Back => "back-action"

/-- From String for ChatSessionAction: decoding a callback token always
yields a bare discriminant; an unknown token becomes FileOrDir of the
parsed path. -/
def ChatSessionAction.ofTokenString (s : String) : ChatSessionAction :=
  if s = "mkdir-action" then .MkDir none
  else if s = "save-file-action" then .SaveFile none none
  else if s = "." then .CurrentDir
  else if s = ".." then .ParentDir
  else if s = "delete-dir-action" then .DeleteDir
  else if s = "explorer-action" then .Explorer
  else if s = "rename-file-action" then .RenameFile none
  else if s = "move-file-action" then .MoveFile none
  else if s = "delete-file-action" then .DeleteFile
  else if s = "back-action" then .Back
  else .FileOrDir (parsePath s)

/-- ChatSession from chat_session.rs. -/
structure ChatSession where
  current_path : FsPath
  action : Option ChatSessionAction

/-- ChatSession::set_action. -/
def ChatSession.set_action (cs : ChatSession) (a : ChatSessionAction) : ChatSession :=
  ⟨cs.current_path, some a⟩

/-- ChatSession::clear_action. -/
def ChatSession.clear_action (cs : ChatSession) : ChatSession :=
  ⟨cs.current_path, none⟩

/-- ChatSession::current_path_string. -/
def ChatSession.current_path_string (cs : ChatSession) : String :=
  cs.current_path.render

/-- ChatSession::set_current_path: panics (canister trap) when the path is
not absolute; the error value carries the panic message. -/
def trySetCurrentPath (cs : ChatSession) (p : FsPath) : Except String ChatSession :=
  if is_absolute p then .ok ⟨p, cs.action⟩ else .error "Path is not absolute"

/-- ChatSession::reset: current path back to the root, no pending action. -/
def ChatSession.reset (_cs : ChatSession) : ChatSession :=
  ⟨rootPath, none⟩

/-- ChatSession::default. -/
def ChatSession.defaultCs : ChatSession := ⟨rootPath, none⟩

/-! Message and trigger layer (frankenstein types restricted to the fields
the handlers read, command.rs, reply.rs, the keyboard builder in
filesystem.rs and the message templates of utils/defaults.rs; templates are
embedded as abstract descriptors since only their identity matters here). -/

/-- An attachment carrying a size and a declared mime type (document,
video, audio, voice). -/
structure Attachment where
  file_size : Option Nat
  mime_type : Option String

/-- An attachment carrying only a size (photo sizes, video notes,
stickers). -/
structure MediaInfo where
  file_size : Option Nat

/-- MessageEntityType restricted to the only comparison the code makes. -/
inductive MessageEntityType where
  | botCommand
  | other
deriving DecidableEq

/-- MessageEntity fields read by Command::try_from. -/
structure MessageEntity where
  type_field : MessageEntityType
  offset : Nat
  length : Nat

/-- The inbound Telegram message restricted to the fields the handlers
read. -/
structure Message where
  message_id : Int
  from_first_name : Option String
  text : Option String
  entities : Option (List MessageEntity)
  document : Option Attachment
  photo : Option (List MediaInfo)
  video : Option Attachment
  video_note : Option MediaInfo
  audio : Option Attachment
  voice : Option Attachment
  sticker : Option MediaInfo
  contact : Bool

/-- MaybeInaccessibleMessage restricted to the message id the handler
extracts from either variant. -/
inductive MaybeInaccessibleMessage where
  | message (message_id : Int)
  | inaccessibleMessage (message_id : Int)

/-- The message id of either variant. -/
def MaybeInaccessibleMessage.messageId : MaybeInaccessibleMessage → Int
  | .message mid => mid
  | .inaccessibleMessage mid => mid

/-- CallbackQuery restricted to the fields the handler reads. -/
structure CallbackQuery where
  data : Option String
  message : Option MaybeInaccessibleMessage

/-- Command from command.rs. -/
inductive Command where
  | Start
  | Help
  | Info
  | MkDir
  | Explorer
  | RenameFile
  | MoveFile
  | DeleteDir
  | DeleteFile

/-- Command::try_from(Message): requires text, a first entity of bot
command type, and a known command string at the entity range (the byte
range extraction is embedded as a character range, which agrees on the
ascii command strings involved). -/
def Command.tryFrom (msg : Message) : Except String Command :=
  match msg.text with
  | none => .error "No text in message"
  | some text_command =>
      match msg.entities.bind List.head? with
      | none => .error "No entities in message"
      | some entity =>
          if entity.type_field ≠ MessageEntityType.botCommand then
            .error "No bot command in message"
          else
            let command := String.mk ((text_command.data.drop entity.offset).take entity.length)
            if command = "/start" then .ok .Start
            else if command = "/help" then .ok .Help
            else if command = "/info" then .ok .Info
            else if command = "/mkdir" then .ok .MkDir
            else if command = "/explorer" then .ok .Explorer
            else if command = "/rename_file" then .ok .RenameFile
            else if command = "/move_file" then .ok .MoveFile
            else if command = "/delete_dir" then .ok .DeleteDir
            else if command = "/delete_file" then .ok .DeleteFile
            else .error "Unknown command"

/-- Abstract descriptor of the outbound message text: one constructor per
template of utils/defaults.rs (the argument strings are the rendered paths
and names interpolated by the template). -/
inductive MsgText where
  | emptyText
  | startMsg (first_name : Option String)
  | helpMsg
  | infoMsg
  | comingSoon
  | mkdirMsg (path : String)
  | createFileMsg (path : String)
  | askDirectoryNameMsg (path : String)
  | askFileNameMsg (path : String)
  | askRenameFileMsg (file_name : String) (path : String)
  | createdDirectoryMsg (dir_name : String) (path : String)
  | createdFileMsg (file_name : String) (path : String)
  | renamedFileMsg (old_name : String) (new_name : String) (path : String)
  | movedFileMsg (file_name : String) (from_path : String) (to_path : String)
  | explorerMsg (path : String)
  | explorerFileMsg (file_name : String) (path : String)
  | renameFileMsg (path : String)
  | moveFileSelectFileMsg (path : String)
  | moveFileSelectDestMsg (path : String)
  | genericError

/-- MessageParams from utils/reply.rs: Send or Edit parameters, with the
fields the handlers set (the keyboard is the ordered list of callback
data values, one button row each, as built by KeyboardDirectoryBuilder). -/
structure MessageParams where
  is_edit : Bool
  chat_id : Int
  edit_message_id : Option Int
  text : MsgText
  keyboard : Option (List ChatSessionAction)
  reply_to : Option Int

/-- MessageParams::new_send. -/
def MessageParams.new_send (chat_id : Int) : MessageParams :=
  ⟨false, chat_id, none, .emptyText, none, none⟩

/-- MessageParams::new_edit. -/
def MessageParams.new_edit (chat_id message_id : Int) : MessageParams :=
  ⟨true, chat_id, some message_id, .emptyText, none, none⟩

/-- MessageParams::set_text. -/
def MessageParams.set_text (m : MessageParams) (t : MsgText) : MessageParams :=
  ⟨m.is_edit, m.chat_id, m.edit_message_id, t, m.keyboard, m.reply_to⟩

/-- MessageParams::set_inline_keyboard_markup. -/
def MessageParams.set_keyboard (m : MessageParams) (kb : List ChatSessionAction) :
    MessageParams :=
  ⟨m.is_edit, m.chat_id, m.edit_message_id, m.text, some kb, m.reply_to⟩

/-- MessageParams::set_reply_to_message_id: fails on edit parameters. -/
def MessageParams.set_reply_to (m : MessageParams) (mid : Int) :
    Except String MessageParams :=
  if m.is_edit then .error "editMessageText does not support reply_to_message_id"
  else .ok ⟨m.is_edit, m.chat_id, m.edit_message_id, m.text, m.keyboard, some mid⟩

/-- MessageParams::generic_error. -/
def MessageParams.genericError (chat_id : Int) : MessageParams :=
  ⟨false, chat_id, none, .genericError, none, none⟩

/-- KeyboardDirectoryBuilder from filesystem.rs (the inline keyboard is the
list of callback data values of the buttons, in order). -/
structure KeyboardDirectoryBuilder where
  inline_keyboard : List ChatSessionAction
  current_node : FileSystemNode
  current_path : FsPath

/-- KeyboardDirectoryBuilder::new: resolve the node, start from the parent
button unless at the root, then one button per child directory. -/
def KeyboardDirectoryBuilder.new (fs : FileSystem) (current_path : FsPath) :
    Except String KeyboardDirectoryBuilder :=
  match fs.get_node current_path with
  | .error e => .error e
  | .ok current_node =>
      let base : List ChatSessionAction :=
        if current_path = rootPath then [] else [.ParentDir]
      match current_node.ls_directories with
      | .error e => .error e
      | .ok dirs =>
          .ok ⟨base ++ dirs.map (fun d => .FileOrDir (current_path.join d)),
               current_node, current_path⟩

/-- KeyboardDirectoryBuilder::with_current_dir_button. -/
def KeyboardDirectoryBuilder.with_current_dir_button
    (b : KeyboardDirectoryBuilder) : KeyboardDirectoryBuilder :=
  ⟨.CurrentDir :: b.inline_keyboard, b.current_node, b.current_path⟩

/-- KeyboardDirectoryBuilder::with_files. -/
def KeyboardDirectoryBuilder.with_files (b : KeyboardDirectoryBuilder) :
    Except String KeyboardDirectoryBuilder :=
  match b.current_node.ls_files with
  | .error e => .error e
  | .ok files =>
      .ok ⟨b.inline_keyboard ++ files.map (fun f => .FileOrDir (b.current_path.join f)),
           b.current_node, b.current_path⟩

/-- KeyboardDirectoryBuilder::build. -/
def KeyboardDirectoryBuilder.build (b : KeyboardDirectoryBuilder) :
    List ChatSessionAction :=
  b.inline_keyboard

/-- back_inline_keyboard from utils/defaults.rs. -/
def backInlineKeyboard : List ChatSessionAction := [.Back]

/-- Outcome of one turn of a handler: a produced response, a recoverable
error (the Err of the Rust Result), or a canister trap (a Rust panic). -/
inductive HandlerResult where
  | ok (params : MessageParams)
  | err (e : String)
  | trap (e : String)

/-- The turn wrapper: with_clear_action_on_error clears the pending action
on a recoverable error (keeping everything else, including filesystem
mutations already made); a trap rolls the whole canister state of the turn
back. -/
def runTurn (cs0 : ChatSession) (fs0 : FileSystem)
    (inner : HandlerResult × ChatSession × FileSystem) :
    HandlerResult × ChatSession × FileSystem :=
  match inner with
  | (.ok m, cs, fs) => (.ok m, cs, fs)
  | (.err e, cs, fs) => (.err e, cs.clear_action, fs)
  | (.trap e, _, _) => (.trap e, cs0, fs0)

/-- The panic message of Option::unwrap, used where the Rust code unwraps. -/
def unwrapPanic : String := "called Option.unwrap on a None value"

/-- process_file_message from chat_session_service.rs: reset the session,
capture the attachment into a fresh file node, enter the save-file flow and
prompt for a destination (the filesystem is only read, for the keyboard). -/
def process_file_message (now : Nat) (fs : FileSystem) (chat_id : Int)
    (message_id : Int) (file_size : Option Nat) (mime_type : Option String)
    (cs : ChatSession) : HandlerResult × ChatSession :=
  let cs := cs.reset
  let file_node := FileSystemNode.new_file now message_id (file_size.getD 0) mime_type
  let cs := cs.set_action (.SaveFile (some file_node) none)
  match KeyboardDirectoryBuilder.new fs cs.current_path with
  | .error e => (.err e, cs)
  | .ok kb =>
      let kb := kb.with_current_dir_button
      (.ok (((MessageParams.new_send chat_id).set_text
        (.createFileMsg cs.current_path_string)).set_keyboard kb.build), cs)

/-- The body of handle_update_content_message (inside
with_clear_action_on_error), state passing in place of the Rust
mutations. -/
def messageInner (now : Nat) (chat_id : Int) (msg : Message)
    (fs : FileSystem) (cs : ChatSession) :
    HandlerResult × ChatSession × FileSystem :=
  match Command.tryFrom msg with
  | .ok command =>
      let cs := cs.reset
      match command with
      | .Start =>
          (.ok ((MessageParams.new_send chat_id).set_text
            (.startMsg msg.from_first_name)), cs, fs)
      | .Help => (.ok ((MessageParams.new_send chat_id).set_text .helpMsg), cs, fs)
      | .Info => (.ok ((MessageParams.new_send chat_id).set_text .infoMsg), cs, fs)
      | .MkDir =>
          let cs := cs.set_action (.MkDir none)
          match KeyboardDirectoryBuilder.new fs cs.current_path with
          | .error e => (.err e, cs, fs)
          | .ok kb =>
              let kb := kb.with_current_dir_button
              (.ok (((MessageParams.new_send chat_id).set_text
                (.mkdirMsg cs.current_path_string)).set_keyboard kb.build), cs, fs)
      | .Explorer =>
          let cs := cs.set_action .Explorer
          match KeyboardDirectoryBuilder.new fs cs.current_path with
          | .error e => (.err e, cs, fs)
          | .ok kb =>
              match kb.with_files with
              | .error e => (.err e, cs, fs)
              | .ok kb =>
                  (.ok (((MessageParams.new_send chat_id).set_text
                    (.explorerMsg cs.current_path_string)).set_keyboard kb.build), cs, fs)
      | .RenameFile =>
          let cs := cs.set_action (.RenameFile none)
          match KeyboardDirectoryBuilder.new fs cs.current_path with
          | .error e => (.err e, cs, fs)
          | .ok kb =>
              match kb.with_files with
              | .error e => (.err e, cs, fs)
              | .ok kb =>
                  (.ok (((MessageParams.new_send chat_id).set_text
                    (.renameFileMsg cs.current_path_string)).set_keyboard kb.build), cs, fs)
      | .MoveFile =>
          let cs := cs.set_action (.MoveFile none)
          match KeyboardDirectoryBuilder.new fs cs.current_path with
          | .error e => (.err e, cs, fs)
          | .ok kb =>
              match kb.with_files with
              | .error e => (.err e, cs, fs)
              | .ok kb =>
                  (.ok (((MessageParams.new_send chat_id).set_text
                    (.moveFileSelectFileMsg cs.current_path_string)).set_keyboard
                      kb.build), cs, fs)
      | .DeleteDir =>
          (.ok ((MessageParams.new_send chat_id).set_text .comingSoon), cs, fs)
      | .DeleteFile =>
          (.ok ((MessageParams.new_send chat_id).set_text .comingSoon), cs, fs)
  | .error _ =>
      match msg.text with
      | some text =>
          match cs.action with
          | some current_action =>
              match current_action with
              | .MkDir (some .DirectoryName) =>
                  let dir_name := text
                  let dir_path := cs.current_path.join dir_name
                  let res := fs.mkdir now dir_path
                  match res.1 with
                  | .error e => (.err e, cs, res.2)
                  | .ok _ =>
                      let cs := cs.reset
                      (.ok ((MessageParams.new_send chat_id).set_text
                        (.createdDirectoryMsg dir_name dir_path.render)), cs, res.2)
              | .SaveFile (some file_node) (some .FileName) =>
                  let file_name := text
                  let dir_path := cs.current_path
                  let file_path := dir_path.join file_name
                  let res := fs.create_file_from_node now file_path file_node
                  match res.1 with
                  | .error e => (.err e, cs, res.2)
                  | .ok final_file_path =>
                      match final_file_path.file_name with
                      | none => (.trap unwrapPanic, cs, res.2)
                      | some final_name =>
                          (.ok ((MessageParams.new_send chat_id).set_text
                            (.createdFileMsg final_name dir_path.render)), cs, res.2)
              | .RenameFile (some .FileName) =>
                  let new_file_name := text
                  let from_path := cs.current_path
                  let to_path := from_path.set_file_name new_file_name
                  let res := fs.mv now from_path to_path
                  match res.1 with
                  | .error e => (.err e, cs, res.2)
                  | .ok _ =>
                      match from_path.file_name, from_path.parent with
                      | some old_name, some par =>
                          (.ok ((MessageParams.new_send chat_id).set_text
                            (.renamedFileMsg old_name new_file_name par.render)), cs, res.2)
                      | _, _ => (.trap unwrapPanic, cs, res.2)
              | _ => (.ok (MessageParams.genericError chat_id), cs, fs)
          | none =>
              let r := process_file_message now fs chat_id msg.message_id
                (some text.utf8ByteSize) (some (tgMimeMarker ++ "text")) cs
              (r.1, r.2, fs)
      | none =>
          match msg.document with
          | some document =>
              let r := process_file_message now fs chat_id msg.message_id
                document.file_size document.mime_type cs
              (r.1, r.2, fs)
          | none =>
          match msg.photo with
          | some photos =>
              match photos.head? with
              | none => (.trap unwrapPanic, cs, fs)
              | some photo =>
                  let r := process_file_message now fs chat_id msg.message_id
                    photo.file_size (some "jpeg") cs
                  (r.1, r.2, fs)
          | none =>
          match msg.video with
          | some video =>
              let r := process_file_message now fs chat_id msg.message_id
                video.file_size video.mime_type cs
              (r.1, r.2, fs)
          | none =>
          match msg.video_note with
          | some video_note =>
              let r := process_file_message now fs chat_id msg.message_id
                video_note.file_size (some (tgMimeMarker ++ "video_note")) cs
              (r.1, r.2, fs)
          | none =>
          match msg.audio with
          | some audio =>
              let r := process_file_message now fs chat_id msg.message_id
                audio.file_size audio.mime_type cs
              (r.1, r.2, fs)
          | none =>
          match msg.voice with
          | some voice =>
              let r := process_file_message now fs chat_id msg.message_id
                voice.file_size voice.mime_type cs
              (r.1, r.2, fs)
          | none =>
          match msg.sticker with
          | some sticker =>
              let r := process_file_message now fs chat_id msg.message_id
                sticker.file_size (some (tgMimeMarker ++ "sticker")) cs
              (r.1, r.2, fs)
          | none =>
              if msg.contact then
                let r := process_file_message now fs chat_id msg.message_id
                  none (some (tgMimeMarker ++ "contact")) cs
                (r.1, r.2, fs)
              else (.ok (MessageParams.genericError chat_id), cs, fs)

/-- handle_update_content_message from chat_session_service.rs: the body
wrapped by with_clear_action_on_error, with the session and filesystem
persisted afterwards (the returned pair is what gets persisted). -/
def handle_update_content_message (now : Nat) (chat_id : Int) (fs : FileSystem)
    (cs : ChatSession) (msg : Message) : HandlerResult × ChatSession × FileSystem :=
  runTurn cs fs (messageInner now chat_id msg fs cs)

/-- The body of handle_update_content_callback_query after the trigger has
been decoded from the callback data (inside with_clear_action_on_error). -/
def callbackQueryInner (now : Nat) (chat_id message_id : Int)
    (trigger : ChatSessionAction) (fs : FileSystem) (cs : ChatSession) :
    HandlerResult × ChatSession × FileSystem :=
  match cs.action with
  | none => (.err "UpdateContent::CallbackQuery: No action in chat session", cs, fs)
  | some current_action =>
      match trigger with
      | .CurrentDir =>
          match current_action with
          | .MkDir none =>
              let cs := cs.set_action (.MkDir (some .DirectoryName))
              (.ok (((MessageParams.new_edit chat_id message_id).set_text
                (.askDirectoryNameMsg cs.current_path_string)).set_keyboard
                  backInlineKeyboard), cs, fs)
          | .SaveFile (some file_node) none =>
              let cs := cs.set_action (.SaveFile (some file_node) (some .FileName))
              (.ok (((MessageParams.new_edit chat_id message_id).set_text
                (.askFileNameMsg cs.current_path_string)).set_keyboard
                  backInlineKeyboard), cs, fs)
          | .MoveFile (some from_path) =>
              match from_path.file_name with
              | none => (.trap unwrapPanic, cs, fs)
              | some file_name =>
                  let to_path := cs.current_path.join file_name
                  let res := fs.mv now from_path to_path
                  match res.1 with
                  | .error e => (.err e, cs, res.2)
                  | .ok _ =>
                      (.ok ((MessageParams.new_edit chat_id message_id).set_text
                        (.movedFileMsg file_name from_path.render to_path.render)),
                       cs, res.2)
          | _ => (.err "current action not supported by this action", cs, fs)
      | .ParentDir =>
          let parent_path := cs.current_path.parent.getD rootPath
          match current_action with
          | .Explorer =>
              match fs.get_node parent_path with
              | .error e => (.err e, cs, fs)
              | .ok node =>
                  if node.is_directory then
                    match trySetCurrentPath cs parent_path with
                    | .error e => (.trap e, cs, fs)
                    | .ok cs =>
                        match KeyboardDirectoryBuilder.new fs parent_path with
                        | .error e => (.err e, cs, fs)
                        | .ok kb =>
                            match kb.with_files with
                            | .error e => (.err e, cs, fs)
                            | .ok kb =>
                                (.ok (((MessageParams.new_edit chat_id
                                  message_id).set_text
                                  (.explorerMsg cs.current_path_string)).set_keyboard
                                    kb.build), cs, fs)
                  else (.err "Parent is not a directory", cs, fs)
          | .MkDir _ =>
              match trySetCurrentPath cs parent_path with
              | .error e => (.trap e, cs, fs)
              | .ok cs =>
                  match KeyboardDirectoryBuilder.new fs parent_path with
                  | .error e => (.err e, cs, fs)
                  | .ok kb =>
                      let kb := kb.with_current_dir_button
                      (.ok (((MessageParams.new_edit chat_id message_id).set_text
                        (.mkdirMsg cs.current_path_string)).set_keyboard kb.build),
                       cs, fs)
          | .SaveFile (some _) none =>
              match trySetCurrentPath cs parent_path with
              | .error e => (.trap e, cs, fs)
              | .ok cs =>
                  match KeyboardDirectoryBuilder.new fs parent_path with
                  | .error e => (.err e, cs, fs)
                  | .ok kb =>
                      let kb := kb.with_current_dir_button
                      (.ok (((MessageParams.new_edit chat_id message_id).set_text
                        (.createFileMsg cs.current_path_string)).set_keyboard kb.build),
                       cs, fs)
          | .RenameFile _ =>
              match trySetCurrentPath cs parent_path with
              | .error e => (.trap e, cs, fs)
              | .ok cs =>
                  match KeyboardDirectoryBuilder.new fs parent_path with
                  | .error e => (.err e, cs, fs)
                  | .ok kb =>
                      match kb.with_files with
                      | .error e => (.err e, cs, fs)
                      | .ok kb =>
                          (.ok (((MessageParams.new_edit chat_id message_id).set_text
                            (.renameFileMsg cs.current_path_string)).set_keyboard
                              kb.build), cs, fs)
          | .MoveFile from_path =>
              match trySetCurrentPath cs parent_path with
              | .error e => (.trap e, cs, fs)
              | .ok cs =>
                  match from_path with
                  | some fp =>
                      match KeyboardDirectoryBuilder.new fs cs.current_path with
                      | .error e => (.err e, cs, fs)
                      | .ok kb =>
                          let kb := kb.with_current_dir_button
                          (.ok (((MessageParams.new_edit chat_id message_id).set_text
                            (.moveFileSelectDestMsg fp.render)).set_keyboard kb.build),
                           cs, fs)
                  | none =>
                      match KeyboardDirectoryBuilder.new fs parent_path with
                      | .error e => (.err e, cs, fs)
                      | .ok kb =>
                          match kb.with_files with
                          | .error e => (.err e, cs, fs)
                          | .ok kb =>
                              (.ok (((MessageParams.new_edit chat_id
                                message_id).set_text
                                (.moveFileSelectFileMsg
                                  cs.current_path_string)).set_keyboard kb.build),
                               cs, fs)
          | _ => (.err "current action not supported by this action", cs, fs)
      | .FileOrDir path =>
          match current_action with
          | .Explorer =>
              match fs.get_node path with
              | .error e => (.err e, cs, fs)
              | .ok node =>
                  if node.is_directory then
                    match trySetCurrentPath cs path with
                    | .error e => (.trap e, cs, fs)
                    | .ok cs =>
                        match KeyboardDirectoryBuilder.new fs path with
                        | .error e => (.err e, cs, fs)
                        | .ok kb =>
                            match kb.with_files with
                            | .error e => (.err e, cs, fs)
                            | .ok kb =>
                                (.ok (((MessageParams.new_edit chat_id
                                  message_id).set_text
                                  (.explorerMsg cs.current_path_string)).set_keyboard
                                    kb.build), cs, fs)
                  else
                    match node.file_message_id with
                    | none => (.err "Message id not found", cs, fs)
                    | some file_mid =>
                        match path.file_name with
                        | none => (.err "File name not found", cs, fs)
                        | some file_name =>
                            match ((MessageParams.new_send chat_id).set_text
                              (.explorerFileMsg file_name
                                cs.current_path_string)).set_reply_to file_mid with
                            | .error e => (.err e, cs, fs)
                            | .ok m => (.ok m, cs, fs)
          | .MkDir _ =>
              match trySetCurrentPath cs path with
              | .error e => (.trap e, cs, fs)
              | .ok cs =>
                  match KeyboardDirectoryBuilder.new fs path with
                  | .error e => (.err e, cs, fs)
                  | .ok kb =>
                      let kb := kb.with_current_dir_button
                      (.ok (((MessageParams.new_edit chat_id message_id).set_text
                        (.mkdirMsg cs.current_path_string)).set_keyboard kb.build),
                       cs, fs)
          | .SaveFile (some _) none =>
              match trySetCurrentPath cs path with
              | .error e => (.trap e, cs, fs)
              | .ok cs =>
                  match KeyboardDirectoryBuilder.new fs path with
                  | .error e => (.err e, cs, fs)
                  | .ok kb =>
                      let kb := kb.with_current_dir_button
                      (.ok (((MessageParams.new_edit chat_id message_id).set_text
                        (.createFileMsg cs.current_path_string)).set_keyboard kb.build),
                       cs, fs)
          | .RenameFile none =>
              match fs.get_node path with
              | .error e => (.err e, cs, fs)
              | .ok node =>
                  if node.is_directory then
                    match trySetCurrentPath cs path with
                    | .error e => (.trap e, cs, fs)
                    | .ok cs =>
                        match KeyboardDirectoryBuilder.new fs cs.current_path with
                        | .error e => (.err e, cs, fs)
                        | .ok kb =>
                            match kb.with_files with
                            | .error e => (.err e, cs, fs)
                            | .ok kb =>
                                (.ok (((MessageParams.new_edit chat_id
                                  message_id).set_text
                                  (.renameFileMsg
                                    cs.current_path_string)).set_keyboard kb.build),
                                 cs, fs)
                  else
                    match node.file_message_id with
                    | none => (.err "Message id not found", cs, fs)
                    | some file_mid =>
                        match path.file_name with
                        | none => (.err "File name not found", cs, fs)
                        | some file_name =>
                            match ((MessageParams.new_send chat_id).set_text
                              (.askRenameFileMsg file_name
                                cs.current_path_string)).set_reply_to file_mid with
                            | .error e => (.err e, cs, fs)
                            | .ok m =>
                                match trySetCurrentPath cs path with
                                | .error e => (.trap e, cs, fs)
                                | .ok cs =>
                                    let cs := cs.set_action
                                      (.RenameFile (some .FileName))
                                    (.ok m, cs, fs)
          | .MoveFile from_path =>
              match fs.get_node path with
              | .error e => (.err e, cs, fs)
              | .ok node =>
                  if node.is_directory then
                    match trySetCurrentPath cs path with
                    | .error e => (.trap e, cs, fs)
                    | .ok cs =>
                        match from_path with
                        | some fp =>
                            match KeyboardDirectoryBuilder.new fs cs.current_path with
                            | .error e => (.err e, cs, fs)
                            | .ok kb =>
                                let kb := kb.with_current_dir_button
                                (.ok (((MessageParams.new_edit chat_id
                                  message_id).set_text
                                  (.moveFileSelectDestMsg fp.render)).set_keyboard
                                    kb.build), cs, fs)
                        | none =>
                            match KeyboardDirectoryBuilder.new fs cs.current_path with
                            | .error e => (.err e, cs, fs)
                            | .ok kb =>
                                match kb.with_files with
                                | .error e => (.err e, cs, fs)
                                | .ok kb =>
                                    (.ok (((MessageParams.new_edit chat_id
                                      message_id).set_text
                                      (.moveFileSelectFileMsg
                                        cs.current_path_string)).set_keyboard kb.build),
                                     cs, fs)
                  else
                    match node.file_message_id with
                    | none => (.err "Message id not found", cs, fs)
                    | some file_mid =>
                        match trySetCurrentPath cs rootPath with
                        | .error e => (.trap e, cs, fs)
                        | .ok cs =>
                            match ((MessageParams.new_send chat_id).set_text
                              (.moveFileSelectDestMsg path.render)).set_reply_to
                                file_mid with
                            | .error e => (.err e, cs, fs)
                            | .ok m =>
                                match KeyboardDirectoryBuilder.new fs cs.current_path with
                                | .error e => (.err e, cs, fs)
                                | .ok kb =>
                                    let kb := kb.with_current_dir_button
                                    let m := m.set_keyboard kb.build
                                    let cs := cs.set_action (.MoveFile (some path))
                                    (.ok m, cs, fs)
          | _ => (.err "current action not supported by this action", cs, fs)
      | .Back =>
          match current_action with
          | .MkDir (some _) =>
              let cs := cs.set_action (.MkDir none)
              match KeyboardDirectoryBuilder.new fs cs.current_path with
              | .error e => (.err e, cs, fs)
              | .ok kb =>
                  let kb := kb.with_current_dir_button
                  (.ok (((MessageParams.new_edit chat_id message_id).set_text
                    (.mkdirMsg cs.current_path_string)).set_keyboard kb.build), cs, fs)
          | .SaveFile (some file_node) (some _) =>
              let cs := cs.set_action (.SaveFile (some file_node) none)
              match KeyboardDirectoryBuilder.new fs cs.current_path with
              | .error e => (.err e, cs, fs)
              | .ok kb =>
                  let kb := kb.with_current_dir_button
                  (.ok (((MessageParams.new_edit chat_id message_id).set_text
                    (.createFileMsg cs.current_path_string)).set_keyboard kb.build),
                   cs, fs)
          | _ => (.err "current action not supported by this action", cs, fs)
      | _ => (.err "invalid action", cs, fs)

/-- One callback turn with a decoded trigger: the inner body wrapped by
with_clear_action_on_error (and trap rollback). -/
def handleCallbackTrigger (now : Nat) (chat_id message_id : Int)
    (trigger : ChatSessionAction) (fs : FileSystem) (cs : ChatSession) :
    HandlerResult × ChatSession × FileSystem :=
  runTurn cs fs (callbackQueryInner now chat_id message_id trigger fs cs)

/-- handle_update_content_callback_query from chat_session_service.rs:
extract data and message id from the query, decode the trigger, run the
body under with_clear_action_on_error. -/
def handle_update_content_callback_query (now : Nat) (chat_id : Int)
    (fs : FileSystem) (cs : ChatSession) (query : CallbackQuery) :
    HandlerResult × ChatSession × FileSystem :=
  runTurn cs fs
    (match query.data with
     | none => (.err "Data not found in callback query", cs, fs)
     | some data =>
         match query.message with
         | none => (.err "Message not found in callback query", cs, fs)
         | some m =>
             callbackQueryInner now chat_id m.messageId
               (ChatSessionAction.ofTokenString data) fs cs)

/-! The transition table of spec section 4.2 and concrete claim
instances. -/

/-- The (callback trigger, pending action) pairs listed in the transition
table of spec section 4.2 (exactly the pairs the callback handler supports
with a dedicated arm). -/
def inTransitionTable : ChatSessionAction → Option ChatSessionAction → Bool
  | .CurrentDir, some (.MkDir none) => true
  | .CurrentDir, some (.SaveFile (some _) none) => true
  | .CurrentDir, some (.MoveFile (some _)) => true
  | .ParentDir, some .Explorer => true
  | .ParentDir, some (.MkDir _) => true
  | .ParentDir, some (.SaveFile (some _) none) => true
  | .ParentDir, some (.RenameFile _) => true
  | .ParentDir, some (.MoveFile _) => true
  | .FileOrDir _, some .Explorer => true
  | .FileOrDir _, some (.MkDir _) => true
  | .FileOrDir _, some (.SaveFile (some _) none) => true
  | .FileOrDir _, some (.RenameFile none) => true
  | .FileOrDir _, some (.MoveFile _) => true
  | .Back, some (.MkDir (some _)) => true
  | .Back, some (.SaveFile (some _) (some _)) => true
  | _, _ => false

/-- The free-form reply rows of the transition table: the pending actions
whose awaited input makes a plain text reply meaningful. -/
def acceptsTextReply : ChatSessionAction → Bool
  | .MkDir (some .DirectoryName) => true
  | .SaveFile (some _) (some .FileName) => true
  | .RenameFile (some .FileName) => true
  | _ => false

/-- A plain text message "hello" (no entities, no attachment). -/
def c2Msg : Message :=
  ⟨13, none, some "hello", none, none, none, none, none, none, none, none, false⟩

/-- The source path of the concrete move-file scenario. -/
def c3From : FsPath := ⟨true, ["Documents", "a.txt"]⟩

/-- Default filesystem with a file at /Documents/a.txt. -/
def c3Fs : FileSystem :=
  ((FileSystem.defaultFs 0).create_file_from_node 0 c3From
    (FileSystemNode.new_file 0 7 10 (some "text/plain"))).2

/-- A session at the root with the move flow holding the captured source. -/
def c3Cs : ChatSession := ⟨rootPath, some (.MoveFile (some c3From))⟩

/-- An inbound message carrying only a document attachment with mime
image/jpeg and size 100. -/
def c4Msg1 : Message :=
  ⟨11, none, none, none, some ⟨some 100, some "image/jpeg"⟩, none, none, none, none,
   none, none, false⟩

/-- A plain text reply "photo". -/
def c4Msg3 : Message :=
  ⟨12, none, some "photo", none, none, none, none, none, none, none, none, false⟩

/-- The file node captured from the attachment of c4Msg1 at time 0. -/
def c4Node : FileSystemNode := FileSystemNode.new_file 0 11 100 (some "image/jpeg")

/-- Scenario step 1: the attachment arrives with no active flow. -/
def c4Step1 : HandlerResult × ChatSession × FileSystem :=
  handle_update_content_message 0 1 (FileSystem.defaultFs 0) ChatSession.defaultCs c4Msg1

/-- Scenario step 2: the SelectHere button ("." token) is tapped. -/
def c4Step2 : HandlerResult × ChatSession × FileSystem :=
  handle_update_content_callback_query 0 1 c4Step1.2.2 c4Step1.2.1
    ⟨some ".", some (.message 5)⟩

/-- Scenario step 3: the text reply "photo" arrives. -/
def c4Step3 : HandlerResult × ChatSession × FileSystem :=
  handle_update_content_message 0 1 c4Step2.2.2 c4Step2.2.1 c4Msg3

/-! Association list lemmas (the BTreeMap view). -/

theorem lookupNode_insertEntry_self (ns : FileSystemNodes) (key : String)
    (v : FileSystemNode) : lookupNode (insertEntry ns key v) key = some v := by
  induction ns with
  | nil => simp [insertEntry, lookupNode]
  | cons e rest ih =>
      obtain ⟨k, w⟩ := e
      by_cases hk : k = key
      · simp [insertEntry, hk, lookupNode]
      · by_cases hlt : strLtB key k = true
        · simp [insertEntry, hk, hlt, lookupNode]
        · simp [insertEntry, hk, hlt, lookupNode, ih]

theorem lookupNode_insertEntry_ne (ns : FileSystemNodes) (key key' : String)
    (v : FileSystemNode) (h : key' ≠ key) :
    lookupNode (insertEntry ns key v) key' = lookupNode ns key' := by
  have hne : key ≠ key' := Ne.symm h
  induction ns with
  | nil => simp [insertEntry, lookupNode, hne]
  | cons e rest ih =>
      obtain ⟨k, w⟩ := e
      by_cases hk : k = key
      · subst hk
        simp [insertEntry, lookupNode, hne]
      · by_cases hlt : strLtB key k = true
        · simp [insertEntry, hk, hlt, lookupNode, hne]
        · have h1 : lookupNode (insertEntry ((k, w) :: rest) key v) key'
              = lookupNode ((k, w) :: insertEntry rest key v) key' := by
            simp only [insertEntry, if_neg hk, if_neg hlt]
          rw [h1]
          by_cases hk2 : k = key'
          · simp [lookupNode, hk2]
          · simp [lookupNode, hk2, ih]

theorem lookupNode_eq_none_of_not_mem (ns : FileSystemNodes) (key : String)
    (h : key ∉ ns.map Prod.fst) : lookupNode ns key = none := by
  induction ns with
  | nil => simp [lookupNode]
  | cons e rest ih =>
      obtain ⟨k, w⟩ := e
      simp only [List.map_cons, List.mem_cons] at h
      push_neg at h
      have hk : k ≠ key := by
        intro hh
        exact h.1 hh.symm
      simp [lookupNode, hk, ih h.2]

theorem lookupNode_removeEntry_self (ns : FileSystemNodes) (key : String)
    (h : (ns.map Prod.fst).Nodup) : lookupNode (removeEntry ns key) key = none := by
  induction ns with
  | nil => simp [removeEntry, lookupNode]
  | cons e rest ih =>
      obtain ⟨k, w⟩ := e
      simp only [List.map_cons, List.nodup_cons] at h
      by_cases hk : k = key
      · subst hk
        simp only [removeEntry, if_pos rfl]
        exact lookupNode_eq_none_of_not_mem rest k h.1
      · simp [removeEntry, hk, lookupNode, ih h.2]

/-! Walk lemmas for the parent-creating insert and remove walks. -/

theorem parentWalkHitsFile_new_directory (now : Nat) (comps : List String) :
    parentWalkHitsFile (FileSystemNode.new_directory now) comps = false := by
  cases comps <;> simp [FileSystemNode.new_directory, parentWalkHitsFile, lookupNode]

theorem walkParent_hits_file {α : Type} (now : Nat)
    (final : FileSystemNodes → Except String α × FileSystemNodes) :
    ∀ (comps : List String) (current : FileSystemNode),
      parentWalkHitsFile current comps = true →
      (walkParent now final comps current).1 = .error "Parent is not a directory" := by
  intro comps
  induction comps with
  | nil =>
      intro current h
      cases current with
      | file mid c s m => simp [walkParent]
      | directory c ns => simp [parentWalkHitsFile] at h
  | cons comp rest ih =>
      intro current h
      cases current with
      | file mid c s m => simp [walkParent]
      | directory c ns =>
          simp only [parentWalkHitsFile] at h
          cases hl : lookupNode ns comp with
          | none => rw [hl] at h; simp at h
          | some child =>
              rw [hl] at h
              simp only [walkParent, hl, Option.getD_some]
              exact ih child h

theorem walkParent_insert_ok (now : Nat) (key : String) (nd : FileSystemNode) :
    ∀ (comps : List String) (current : FileSystemNode),
      parentWalkHitsFile current comps = false →
      ∃ current',
        walkParent now (fun ns => (Except.ok (), insertEntry ns key nd)) comps current
          = (Except.ok (), current')
        ∧ getNodeAux current' (comps ++ [key]) = Except.ok nd
        ∧ ∀ k, k ≤ comps.length →
            ∃ d, getNodeAux current' (comps.take k) = Except.ok d
              ∧ d.is_directory = true := by
  intro comps
  induction comps with
  | nil =>
      intro current h
      cases current with
      | file mid c s m => simp [parentWalkHitsFile] at h
      | directory c ns =>
          refine ⟨.directory c (insertEntry ns key nd), by simp [walkParent], ?_, ?_⟩
          · simp [getNodeAux, lookupNode_insertEntry_self]
          · intro k hk
            have hk0 : k = 0 := Nat.le_zero.mp (by simpa using hk)
            subst hk0
            exact ⟨.directory c (insertEntry ns key nd), by simp [getNodeAux],
              by simp [FileSystemNode.is_directory]⟩
  | cons comp rest ih =>
      intro current h
      cases current with
      | file mid c s m => simp [parentWalkHitsFile] at h
      | directory c ns =>
          simp only [parentWalkHitsFile] at h
          have hchild : parentWalkHitsFile ((lookupNode ns comp).getD
              (FileSystemNode.new_directory now)) rest = false := by
            cases hl : lookupNode ns comp with
            | none => simpa [Option.getD] using parentWalkHitsFile_new_directory now rest
            | some child => rw [hl] at h; simpa [Option.getD] using h
          obtain ⟨current', heq, hget, htake⟩ := ih _ hchild
          refine ⟨.directory c (insertEntry ns comp current'), ?_, ?_, ?_⟩
          · simp [walkParent, heq]
          · simpa [getNodeAux, lookupNode_insertEntry_self] using hget
          · intro k hk
            cases k with
            | zero =>
                exact ⟨.directory c (insertEntry ns comp current'),
                  by simp [getNodeAux], by simp [FileSystemNode.is_directory]⟩
            | succ j =>
                obtain ⟨d, hd, hdir⟩ := htake j (by
                  simp only [List.length_cons] at hk
                  omega)
                exact ⟨d, by simpa [getNodeAux, lookupNode_insertEntry_self] using hd, hdir⟩

/-- The parent walk never changes whether the walked node is a directory. -/
theorem walkParent_preserves_is_directory {α : Type} (now : Nat)
    (final : FileSystemNodes → Except String α × FileSystemNodes)
    (comps : List String) (current : FileSystemNode) :
    (walkParent now final comps current).2.is_directory = current.is_directory := by
  cases comps with
  | nil =>
      cases current with
      | file mid c s m => simp [walkParent]
      | directory c ns => simp [walkParent, FileSystemNode.is_directory]
  | cons comp rest =>
      cases current with
      | file mid c s m => simp [walkParent]
      | directory c ns => simp [walkParent, FileSystemNode.is_directory]

theorem insert_node_preserves_root_directory (now : Nat) (fs : FileSystem)
    (path : FsPath) (node : FileSystemNode) :
    (fs.insert_node now path node).2.root.is_directory = fs.root.is_directory := by
  unfold FileSystem.insert_node
  cases path.parent with
  | none => simp
  | some par => simpa using walkParent_preserves_is_directory now _ (componentsSkip1 par) fs.root

theorem remove_node_preserves_root_directory (now : Nat) (fs : FileSystem)
    (path : FsPath) :
    (fs.remove_node now path).2.root.is_directory = fs.root.is_directory := by
  unfold FileSystem.remove_node
  cases path.parent with
  | none => simp
  | some par => simpa using walkParent_preserves_is_directory now _ (componentsSkip1 par) fs.root

/-! Lookup walk lemmas (get_node). -/

theorem getNodeAux_file_append :
    ∀ (s : List String) (t : List String) (n f : FileSystemNode),
      getNodeAux n s = .ok f → f.is_file = true → getNodeAux n (s ++ t) = .ok f := by
  intro s
  induction s with
  | nil =>
      intro t n f h hf
      simp only [getNodeAux, Except.ok.injEq] at h
      subst h
      cases t with
      | nil => simp [getNodeAux]
      | cons c rest =>
          cases n with
          | file mid cr sz m => simp [getNodeAux]
          | directory cr ns => simp [FileSystemNode.is_file] at hf
  | cons c rest ih =>
      intro t n f h hf
      cases n with
      | file mid cr sz m =>
          simp only [getNodeAux, Except.ok.injEq] at h
          subst h
          simp [getNodeAux]
      | directory cr ns =>
          simp only [getNodeAux] at h
          cases hl : lookupNode ns c with
          | none => rw [hl] at h; simp at h
          | some child =>
              rw [hl] at h
              simpa [getNodeAux, hl] using ih t child f h hf

theorem getNodeAux_missing_child :
    ∀ (s : List String) (n : FileSystemNode) (c : String) (ca : Nat)
      (ns : FileSystemNodes),
      getNodeAux n s = .ok (.directory ca ns) → lookupNode ns c = none →
      getNodeAux n (s ++ [c]) = .error "Path not found" := by
  intro s
  induction s with
  | nil =>
      intro n c ca ns h hl
      simp only [getNodeAux, Except.ok.injEq] at h
      subst h
      simp [getNodeAux, hl]
  | cons c0 rest ih =>
      intro n c ca ns h hl
      cases n with
      | file mid cr sz m => simp [getNodeAux] at h
      | directory cr ns0 =>
          simp only [getNodeAux] at h
          cases hl0 : lookupNode ns0 c0 with
          | none => rw [hl0] at h; simp at h
          | some child =>
              rw [hl0] at h
              simpa [getNodeAux, hl0] using ih child c ca ns h hl

/-! Claim theorems. -/

/-- C1 counterexample: mkdir on the non-absolute path "a" does not return
the NotAbsolute error: it succeeds and mutates the filesystem (a directory
appears at /a that was absent before), contradicting the claim that every
path-taking store operation rejects non-absolute paths before any
traversal. -/
theorem c1_counterexample :
    (FileSystem.mkdir 0 (FileSystem.defaultFs 0) ⟨false, ["a"]⟩).1 = Except.ok ()
    ∧ ((FileSystem.mkdir 0 (FileSystem.defaultFs 0) ⟨false, ["a"]⟩).2).get_node
        ⟨true, ["a"]⟩ = Except.ok (FileSystemNode.new_directory 0)
    ∧ (FileSystem.defaultFs 0).get_node ⟨true, ["a"]⟩
        = Except.error "Path not found" :=
  ⟨rfl, rfl, rfl⟩

/-- C1 amended: only get_node rejects a non-absolute path with the
NotAbsolute error before any traversal (and, being a read, leaves the
filesystem unchanged); mkdir, create_file_from_node and mv perform no
absoluteness check at all, as witnessed by a non-absolute mkdir that
succeeds. -/
theorem c1_nonabsolute_amended :
    (∀ (fs : FileSystem) (p : FsPath), is_absolute p = false →
        fs.get_node p = Except.error "Path must be absolute")
    ∧ (FileSystem.mkdir 0 (FileSystem.defaultFs 0) ⟨false, ["a"]⟩).1 = Except.ok () := by
  constructor
  · intro fs p h
    simp [FileSystem.get_node, h]
  · rfl

/-- C1 amended, witness at a concrete non-absolute path. -/
theorem c1_nonabsolute_amended_witness :
    is_absolute ⟨false, ["Documents"]⟩ = false
    ∧ (FileSystem.defaultFs 0).get_node ⟨false, ["Documents"]⟩
        = Except.error "Path must be absolute" :=
  ⟨rfl, c1_nonabsolute_amended.1 (FileSystem.defaultFs 0) ⟨false, ["Documents"]⟩ rfl⟩

/-- C5 counterexample: for a pseudo mime the code uses the whole mime
string, marker included, as the extension: create_file("/d/f",
"tg+video_note") returns /d/f.tg+video_note, not the /d/f.video_note the
claim states. -/
theorem c5_counterexample :
    (FileSystem.create_file_from_node 0 ⟨FileSystemNode.new_directory 0⟩
        ⟨true, ["d", "f"]⟩
        (FileSystemNode.new_file 0 0 0 (some (tgMimeMarker ++ "video_note")))).1
      = Except.ok ⟨true, ["d", "f.tg+video_note"]⟩
    ∧ (⟨true, ["d", "f.tg+video_note"]⟩ : FsPath) ≠ ⟨true, ["d", "f.video_note"]⟩ :=
  ⟨rfl, by decide⟩

/-- C5 amended: create_file returns the final path actually used, computed
as: an existing extension is kept verbatim; otherwise a mime starting with
the reserved tg+ marker becomes the literal extension as a whole (marker
included), else the extension comes from the MIME mapping, defaulting to
none; concretely png gives /d/f.png, an existing .mp3 is kept, and the
pseudo video_note mime gives /d/f.tg+video_note. -/
theorem c5_extension_amended :
    (∀ (now : Nat) (fs : FileSystem) (p : FsPath) (node : FileSystemNode),
        ((fs.create_file_from_node now p node).1 = Except.ok (finalCreatePath p node)
          ∨ ∃ e, (fs.create_file_from_node now p node).1 = Except.error e)
        ∧ (p.extension.isSome = true → finalCreatePath p node = p)
        ∧ (∀ m, node.file_mime_type = some m → p.extension = none →
            strStarts m tgMimeMarker = true →
            finalCreatePath p node = p.with_extension m)
        ∧ (∀ m, node.file_mime_type = some m → p.extension = none →
            strStarts m tgMimeMarker = false →
            finalCreatePath p node = p.with_extension ((mime2ext m).getD "")))
    ∧ (FileSystem.create_file_from_node 0 ⟨FileSystemNode.new_directory 0⟩
        ⟨true, ["d", "f"]⟩ (FileSystemNode.new_file 0 0 0 (some "image/png"))).1
        = Except.ok ⟨true, ["d", "f.png"]⟩
    ∧ (FileSystem.create_file_from_node 0 ⟨FileSystemNode.new_directory 0⟩
        ⟨true, ["d", "f.mp3"]⟩ (FileSystemNode.new_file 0 0 0 (some "text/plain"))).1
        = Except.ok ⟨true, ["d", "f.mp3"]⟩
    ∧ (FileSystem.create_file_from_node 0 ⟨FileSystemNode.new_directory 0⟩
        ⟨true, ["d", "f"]⟩
        (FileSystemNode.new_file 0 0 0 (some (tgMimeMarker ++ "video_note")))).1
        = Except.ok ⟨true, ["d", "f.tg+video_note"]⟩ := by
  refine ⟨?_, rfl, rfl, rfl⟩
  intro now fs p node
  refine ⟨?_, ?_, ?_, ?_⟩
  · cases h : (fs.insert_node now (finalCreatePath p node) node).1 with
    | ok u => left; simp [FileSystem.create_file_from_node, h]
    | error e => right; exact ⟨e, by simp [FileSystem.create_file_from_node, h]⟩
  · intro h
    cases hx : p.extension with
    | none => rw [hx] at h; simp at h
    | some x => simp [finalCreatePath, hx]
  · intro m h1 h2 h3
    simp [finalCreatePath, h1, h2, h3]
  · intro m h1 h2 h3
    simp [finalCreatePath, h1, h2, h3]

/-- C5 amended, witness at the png instance of the mapping clause. -/
theorem c5_extension_amended_witness :
    (FileSystemNode.new_file 0 0 0 (some "image/png")).file_mime_type = some "image/png"
    ∧ (⟨true, ["d", "f"]⟩ : FsPath).extension = none
    ∧ strStarts "image/png" tgMimeMarker = false
    ∧ finalCreatePath ⟨true, ["d", "f"]⟩ (FileSystemNode.new_file 0 0 0 (some "image/png"))
        = FsPath.with_extension ⟨true, ["d", "f"]⟩ ((mime2ext "image/png").getD "") :=
  ⟨rfl, rfl, rfl,
    (c5_extension_amended.1 0 ⟨FileSystemNode.new_directory 0⟩ ⟨true, ["d", "f"]⟩
      (FileSystemNode.new_file 0 0 0 (some "image/png"))).2.2.2 "image/png" rfl rfl rfl⟩

/-- C6 counterexample: the claim quantifies over every absolute path, but
at the root path itself make_directory fails with "Invalid path" (the root
has no parent component) and changes nothing, although no existing
intermediate node is a File there. -/
theorem c6_counterexample :
    FileSystem.mkdir 0 (FileSystem.defaultFs 0) rootPath
      = (Except.error "Invalid path", FileSystem.defaultFs 0)
    ∧ parentWalkHitsFile (FileSystem.defaultFs 0).root rootPath.segments.dropLast
        = false :=
  ⟨rfl, rfl⟩

/-- C6 amended: for every filesystem and every absolute path with at least
one segment whose last segment is a valid entry name (not the parent
component ".."), make_directory fails with the NotDirectory error when the
walk to the parent meets an existing File node, and otherwise succeeds,
creating every missing intermediate directory and overwriting whatever was
at the path with a new empty directory, so that the path and all its
ancestors resolve to directories; in particular after
make_directory("/a/b/c") on the default filesystem, /a, /a/b and /a/b/c
all resolve to directories. -/
theorem c6_mkdir_amended :
    (∀ (now : Nat) (fs : FileSystem) (p : FsPath),
        p.isAbs = true → p.segments ≠ [] → p.segments.getLast? ≠ some ".." →
        (parentWalkHitsFile fs.root p.segments.dropLast = true →
            (fs.mkdir now p).1 = Except.error "Parent is not a directory")
        ∧ (parentWalkHitsFile fs.root p.segments.dropLast = false →
            (fs.mkdir now p).1 = Except.ok ()
            ∧ (fs.mkdir now p).2.get_node p
                = Except.ok (FileSystemNode.new_directory now)
            ∧ ∀ k, k ≤ p.segments.length →
                ∃ d, (fs.mkdir now p).2.get_node ⟨true, p.segments.take k⟩
                    = Except.ok d ∧ d.is_directory = true))
    ∧ ((FileSystem.mkdir 1 (FileSystem.defaultFs 0) ⟨true, ["a", "b", "c"]⟩).2.get_node
        ⟨true, ["a"]⟩).map FileSystemNode.is_directory = Except.ok true
    ∧ ((FileSystem.mkdir 1 (FileSystem.defaultFs 0) ⟨true, ["a", "b", "c"]⟩).2.get_node
        ⟨true, ["a", "b"]⟩).map FileSystemNode.is_directory = Except.ok true
    ∧ ((FileSystem.mkdir 1 (FileSystem.defaultFs 0) ⟨true, ["a", "b", "c"]⟩).2.get_node
        ⟨true, ["a", "b", "c"]⟩).map FileSystemNode.is_directory = Except.ok true := by
  refine ⟨?_, rfl, rfl, rfl⟩
  intro now fs p habs hne hlast
  have hsome : p.segments.getLast? = some (p.segments.getLast hne) :=
    List.getLast?_eq_getLast _ hne
  have hdd : p.segments.getLast hne ≠ ".." := by
    intro hh
    rw [hh] at hsome
    exact hlast hsome
  have hkey : p.file_name = some (p.segments.getLast hne) := by
    simp [FsPath.file_name, hsome, hdd]
  have hpar : p.parent = some ⟨p.isAbs, p.segments.dropLast⟩ := by
    simp [FsPath.parent, List.isEmpty_iff, hne]
  have hcomps : componentsSkip1 ⟨p.isAbs, p.segments.dropLast⟩ = p.segments.dropLast := by
    simp [componentsSkip1, habs]
  have hunf : fs.mkdir now p
      = (let res := walkParent now
          (fun ns => (Except.ok (), insertEntry ns (p.segments.getLast hne)
            (FileSystemNode.new_directory now)))
          p.segments.dropLast fs.root
        (res.1, ⟨res.2⟩)) := by
    simp only [FileSystem.mkdir, FileSystem.insert_node, hpar, hcomps, hkey]
  constructor
  · intro hhit
    rw [hunf]
    exact walkParent_hits_file now _ p.segments.dropLast fs.root hhit
  · intro hhit
    obtain ⟨current', heq, hget, htake⟩ :=
      walkParent_insert_ok now (p.segments.getLast hne)
        (FileSystemNode.new_directory now) p.segments.dropLast fs.root hhit
    have hres : fs.mkdir now p = (Except.ok (), ⟨current'⟩) := by
      rw [hunf]
      simp [heq]
    have hsegs : p.segments.dropLast ++ [p.segments.getLast hne] = p.segments :=
      List.dropLast_append_getLast hne
    refine ⟨by simp [hres], ?_, ?_⟩
    · rw [hres]
      simp only [FileSystem.get_node, is_absolute, habs, if_true]
      rw [← hsegs]
      exact hget
    · intro k hk
      by_cases hkl : k ≤ p.segments.dropLast.length
      · obtain ⟨d, hd, hdir⟩ := htake k hkl
        refine ⟨d, ?_, hdir⟩
        rw [hres]
        simp only [FileSystem.get_node, is_absolute, if_true]
        have htk : p.segments.take k = p.segments.dropLast.take k := by
          rw [List.dropLast_eq_take, List.take_take]
          congr 1
          simp only [List.length_dropLast] at hkl
          omega
        rw [htk]
        exact hd
      · have hkeq : k = p.segments.length := by
          simp only [List.length_dropLast] at hkl
          omega
        refine ⟨FileSystemNode.new_directory now, ?_, by simp [FileSystemNode.new_directory, FileSystemNode.is_directory]⟩
        rw [hres]
        simp only [FileSystem.get_node, is_absolute, if_true]
        rw [hkeq, List.take_length, ← hsegs]
        exact hget

/-- C6 amended, witness: mkdir("/a/b/c") on the default filesystem, where
the parent walk meets no File. -/
theorem c6_mkdir_amended_witness :
    (⟨true, ["a", "b", "c"]⟩ : FsPath).isAbs = true
    ∧ parentWalkHitsFile (FileSystem.defaultFs 0).root
        (⟨true, ["a", "b", "c"]⟩ : FsPath).segments.dropLast = false
    ∧ (FileSystem.mkdir 1 (FileSystem.defaultFs 0) ⟨true, ["a", "b", "c"]⟩).1
        = Except.ok () :=
  ⟨rfl, rfl,
    ((c6_mkdir_amended.1 1 (FileSystem.defaultFs 0) ⟨true, ["a", "b", "c"]⟩ rfl
      (by simp) (by simp)).2 rfl).1⟩

/-- C7: on any filesystem whose root directory has an entry "a" that is a
directory containing an entry "x", and no entry "b" (BTreeMap keys are
unique, hence the Nodup hypothesis on the embedded association list),
move("/a/x","/b/x") succeeds, auto-creates the directory /b, after which
/a/x is NotFound and /b/x resolves to the original node. -/
theorem c7_move_parent_creation
    (now c ca : Nat) (rns ans : FileSystemNodes) (xnode : FileSystemNode)
    (ha : lookupNode rns "a" = some (.directory ca ans))
    (hb : lookupNode rns "b" = none)
    (hx : lookupNode ans "x" = some xnode)
    (hnd : (ans.map Prod.fst).Nodup) :
    (FileSystem.mv now ⟨.directory c rns⟩ ⟨true, ["a", "x"]⟩ ⟨true, ["b", "x"]⟩).1
      = Except.ok ()
    ∧ ((FileSystem.mv now ⟨.directory c rns⟩ ⟨true, ["a", "x"]⟩
        ⟨true, ["b", "x"]⟩).2).get_node ⟨true, ["a", "x"]⟩
        = Except.error "Path not found"
    ∧ ((FileSystem.mv now ⟨.directory c rns⟩ ⟨true, ["a", "x"]⟩
        ⟨true, ["b", "x"]⟩).2).get_node ⟨true, ["b", "x"]⟩ = Except.ok xnode
    ∧ ∃ d, ((FileSystem.mv now ⟨.directory c rns⟩ ⟨true, ["a", "x"]⟩
        ⟨true, ["b", "x"]⟩).2).get_node ⟨true, ["b"]⟩ = Except.ok d
        ∧ d.is_directory = true := by
  have hab : ("a" : String) ≠ "b" := by decide
  have hba : ("b" : String) ≠ "a" := by decide
  have hrm : FileSystem.remove_node now ⟨.directory c rns⟩ ⟨true, ["a", "x"]⟩
      = (Except.ok xnode,
         ⟨.directory c (insertEntry rns "a"
           (.directory ca (removeEntry ans "x")))⟩) := by
    simp [FileSystem.remove_node, FsPath.parent, componentsSkip1, FsPath.file_name,
      walkParent, ha, hx]
  have hb2 : lookupNode (insertEntry rns "a"
      (FileSystemNode.directory ca (removeEntry ans "x"))) "b" = none := by
    rw [lookupNode_insertEntry_ne rns "a" "b" _ hba]
    exact hb
  have hins : FileSystem.insert_node now
      (⟨.directory c (insertEntry rns "a"
        (.directory ca (removeEntry ans "x")))⟩ : FileSystem)
      ⟨true, ["b", "x"]⟩ xnode
      = (Except.ok (),
         ⟨.directory c (insertEntry
           (insertEntry rns "a" (.directory ca (removeEntry ans "x")))
           "b" (.directory now [("x", xnode)]))⟩) := by
    simp [FileSystem.insert_node, FsPath.parent, componentsSkip1, FsPath.file_name,
      walkParent, hb2, FileSystemNode.new_directory, insertEntry]
  have hmv : FileSystem.mv now ⟨.directory c rns⟩ ⟨true, ["a", "x"]⟩ ⟨true, ["b", "x"]⟩
      = (Except.ok (),
         ⟨.directory c (insertEntry
           (insertEntry rns "a" (.directory ca (removeEntry ans "x")))
           "b" (.directory now [("x", xnode)]))⟩) := by
    simp only [FileSystem.mv, hrm]
    exact hins
  refine ⟨by simp [hmv], ?_, ?_, ?_⟩
  · rw [hmv]
    simp only [FileSystem.get_node, is_absolute, if_true, getNodeAux]
    rw [lookupNode_insertEntry_ne _ "b" "a" _ hab, lookupNode_insertEntry_self]
    simp only [getNodeAux]
    rw [lookupNode_removeEntry_self ans "x" hnd]
  · rw [hmv]
    simp only [FileSystem.get_node, is_absolute, if_true, getNodeAux]
    rw [lookupNode_insertEntry_self]
    simp [getNodeAux, lookupNode]
  · refine ⟨.directory now [("x", xnode)], ?_, by simp [FileSystemNode.is_directory]⟩
    rw [hmv]
    simp only [FileSystem.get_node, is_absolute, if_true, getNodeAux]
    rw [lookupNode_insertEntry_self]

/-- C7, witness on a concrete two-directory filesystem. -/
theorem c7_move_parent_creation_witness :
    lookupNode [("a", FileSystemNode.directory 0 [("x", FileSystemNode.new_file 0 9 2 none)])]
      "a" = some (.directory 0 [("x", FileSystemNode.new_file 0 9 2 none)])
    ∧ (FileSystem.mv 3
        ⟨.directory 0 [("a", FileSystemNode.directory 0
          [("x", FileSystemNode.new_file 0 9 2 none)])]⟩
        ⟨true, ["a", "x"]⟩ ⟨true, ["b", "x"]⟩).1 = Except.ok () :=
  ⟨rfl,
    (c7_move_parent_creation 3 0 0
      [("a", FileSystemNode.directory 0 [("x", FileSystemNode.new_file 0 9 2 none)])]
      [("x", FileSystemNode.new_file 0 9 2 none)]
      (FileSystemNode.new_file 0 9 2 none) rfl rfl rfl (by simp)).1⟩

/-- C8: get_node walks an absolute path segment by segment from the root;
a File met before the segments are exhausted is returned with the trailing
segments ignored, and a segment missing from the current directory gives
the NotFound error; get_node takes the filesystem immutably (Rust and the
embedding read `&self`), so it never mutates the filesystem. -/
theorem c8_get_node_walk :
    (∀ (fs : FileSystem) (s t : List String) (f : FileSystemNode),
        fs.get_node ⟨true, s⟩ = Except.ok f → f.is_file = true →
        fs.get_node ⟨true, s ++ t⟩ = Except.ok f)
    ∧ (∀ (fs : FileSystem) (s : List String) (c : String) (ca : Nat)
        (ns : FileSystemNodes),
        fs.get_node ⟨true, s⟩ = Except.ok (.directory ca ns) →
        lookupNode ns c = none →
        fs.get_node ⟨true, s ++ [c]⟩ = Except.error "Path not found") := by
  constructor
  · intro fs s t f h hf
    simp only [FileSystem.get_node, is_absolute, if_true] at h ⊢
    exact getNodeAux_file_append s t fs.root f h hf
  · intro fs s c ca ns h hl
    simp only [FileSystem.get_node, is_absolute, if_true] at h ⊢
    exact getNodeAux_missing_child s fs.root c ca ns h hl

/-- C8, witness: a file at /dir-a/file-a.txt is returned for the longer
path /dir-a/file-a.txt/zzz, and a child missing from the root directory is
NotFound. -/
theorem c8_get_node_walk_witness :
    ((⟨.directory 0 [("dir-a", .directory 0
        [("file-a.txt", FileSystemNode.new_file 0 0 0 (some "text/plain"))])]⟩ :
      FileSystem).get_node ⟨true, ["dir-a", "file-a.txt"]⟩
      = Except.ok (FileSystemNode.new_file 0 0 0 (some "text/plain")))
    ∧ ((⟨.directory 0 [("dir-a", .directory 0
        [("file-a.txt", FileSystemNode.new_file 0 0 0 (some "text/plain"))])]⟩ :
      FileSystem).get_node ⟨true, ["dir-a", "file-a.txt", "zzz"]⟩
      = Except.ok (FileSystemNode.new_file 0 0 0 (some "text/plain")))
    ∧ ((⟨.directory 0 [("dir-a", .directory 0
        [("file-a.txt", FileSystemNode.new_file 0 0 0 (some "text/plain"))])]⟩ :
      FileSystem).get_node ⟨true, ["nope"]⟩ = Except.error "Path not found") :=
  ⟨rfl,
    c8_get_node_walk.1 _ ["dir-a", "file-a.txt"] ["zzz"]
      (FileSystemNode.new_file 0 0 0 (some "text/plain")) rfl rfl,
    c8_get_node_walk.2 _ [] "nope" 0
      [("dir-a", .directory 0
        [("file-a.txt", FileSystemNode.new_file 0 0 0 (some "text/plain"))])]
      rfl rfl⟩

/-- C9: the default filesystem root is a directory; mkdir,
create_file_from_node and mv can never replace the root node (the walks
only rebuild the root with the same constructor), and inserting or
removing at the root path itself fails with "Invalid path" leaving the
filesystem unchanged, so every filesystem reachable from the default by
these operations keeps a Directory at the root. -/
theorem c9_root_always_directory :
    (∀ now, (FileSystem.defaultFs now).root.is_directory = true)
    ∧ (∀ (now : Nat) (fs : FileSystem) (p q : FsPath) (node : FileSystemNode),
        fs.root.is_directory = true →
        (fs.mkdir now p).2.root.is_directory = true
        ∧ (fs.create_file_from_node now p node).2.root.is_directory = true
        ∧ (fs.mv now p q).2.root.is_directory = true)
    ∧ (∀ (now : Nat) (fs : FileSystem) (node : FileSystemNode),
        fs.insert_node now rootPath node = (Except.error "Invalid path", fs)
        ∧ fs.remove_node now rootPath = (Except.error "Invalid path", fs)) := by
  refine ⟨fun now => rfl, ?_, ?_⟩
  · intro now fs p q node h
    have hins : ∀ (fs2 : FileSystem) (p2 : FsPath) (n2 : FileSystemNode),
        (fs2.insert_node now p2 n2).2.root.is_directory = fs2.root.is_directory :=
      fun fs2 p2 n2 => insert_node_preserves_root_directory now fs2 p2 n2
    have hrem : ∀ (fs2 : FileSystem) (p2 : FsPath),
        (fs2.remove_node now p2).2.root.is_directory = fs2.root.is_directory :=
      fun fs2 p2 => remove_node_preserves_root_directory now fs2 p2
    refine ⟨by rw [FileSystem.mkdir, hins]; exact h, ?_, ?_⟩
    · have hc : (fs.create_file_from_node now p node).2
          = (fs.insert_node now (finalCreatePath p node) node).2 := by
        unfold FileSystem.create_file_from_node
        cases hr : (fs.insert_node now (finalCreatePath p node) node).1 <;> simp [hr]
      rw [hc, hins]
      exact h
    · unfold FileSystem.mv
      cases hr : fs.remove_node now p with
      | mk r fs' =>
          cases r with
          | error e =>
              simp only []
              have : fs'.root.is_directory = true := by
                have := hrem fs p
                rw [hr] at this
                simpa using this.trans h
              simpa using this
          | ok n =>
              simp only []
              have hfs' : fs'.root.is_directory = true := by
                have := hrem fs p
                rw [hr] at this
                simpa using this.trans h
              rw [hins]
              exact hfs'
  · intro now fs node
    constructor
    · simp [FileSystem.insert_node, FsPath.parent, rootPath]
    · simp [FileSystem.remove_node, FsPath.parent, rootPath]

/-- C9, witness on the default filesystem and concrete paths. -/
theorem c9_root_always_directory_witness :
    (FileSystem.defaultFs 0).root.is_directory = true
    ∧ (FileSystem.mkdir 3 (FileSystem.defaultFs 0) ⟨true, ["x"]⟩).2.root.is_directory
        = true :=
  ⟨rfl,
    ((c9_root_always_directory.2.1 3 (FileSystem.defaultFs 0) ⟨true, ["x"]⟩
      ⟨true, ["y"]⟩ (FileSystemNode.new_file 3 1 2 none)) rfl).1⟩

/-- C10: a failed move is not side-effect free: moving from /a/b/x (absent)
to /c/x on the default filesystem reports "Node not found", yet the
removal walk has already created the missing ancestors /a and /a/b of the
source path (while /c, on the destination side, is not created). -/
theorem c10_failed_move_side_effects :
    (FileSystem.mv 5 (FileSystem.defaultFs 0) ⟨true, ["a", "b", "x"]⟩
        ⟨true, ["c", "x"]⟩).1 = Except.error "Node not found"
    ∧ (FileSystem.defaultFs 0).get_node ⟨true, ["a"]⟩ = Except.error "Path not found"
    ∧ ((FileSystem.mv 5 (FileSystem.defaultFs 0) ⟨true, ["a", "b", "x"]⟩
        ⟨true, ["c", "x"]⟩).2).get_node ⟨true, ["a", "b"]⟩
        = Except.ok (FileSystemNode.directory 5 [])
    ∧ ((FileSystem.mv 5 (FileSystem.defaultFs 0) ⟨true, ["a", "b", "x"]⟩
        ⟨true, ["c", "x"]⟩).2).get_node ⟨true, ["c"]⟩
        = Except.error "Path not found" :=
  ⟨rfl, rfl, rfl, rfl⟩

/-- C2 counterexample: a plain text reply in the MkDir(None) state is a
(pending action, trigger) pair outside the transition table, yet the
handler returns the generic error response as a success and leaves the
pending action in place: the post-turn session still has pending_action =
MkDir(None), not None. -/
theorem c2_counterexample :
    handle_update_content_message 0 1 (FileSystem.defaultFs 0)
        ⟨rootPath, some (.MkDir none)⟩ c2Msg
      = (.ok (MessageParams.genericError 1), ⟨rootPath, some (.MkDir none)⟩,
         FileSystem.defaultFs 0)
    ∧ (handle_update_content_message 0 1 (FileSystem.defaultFs 0)
        ⟨rootPath, some (.MkDir none)⟩ c2Msg).2.1.action ≠ none := by
  refine ⟨rfl, ?_⟩
  have h1 : (handle_update_content_message 0 1 (FileSystem.defaultFs 0)
      ⟨rootPath, some (.MkDir none)⟩ c2Msg).2.1.action = some (.MkDir none) := rfl
  simp [h1]

/-- C2 amended: for callback-query triggers, every (pending action,
trigger) pair outside the transition table yields an error and the
post-turn session has pending_action = None with current_path unchanged;
for free-form text replies in a state that is not awaiting a name, the
handler instead returns the generic error response as a success, leaving
the whole session (pending action included) and the filesystem
unchanged. -/
theorem c2_unsupported_amended :
    (∀ (now : Nat) (chat_id message_id : Int) (trigger : ChatSessionAction)
        (fs : FileSystem) (cs : ChatSession),
        inTransitionTable trigger cs.action = false →
        ∃ e, handleCallbackTrigger now chat_id message_id trigger fs cs
          = (.err e, ⟨cs.current_path, none⟩, fs))
    ∧ (∀ (now : Nat) (chat_id : Int) (fs : FileSystem) (cs : ChatSession)
        (msg : Message) (t : String) (a : ChatSessionAction) (e0 : String),
        msg.text = some t → Command.tryFrom msg = .error e0 →
        cs.action = some a → acceptsTextReply a = false →
        handle_update_content_message now chat_id fs cs msg
          = (.ok (MessageParams.genericError chat_id), cs, fs)) := by
  constructor
  · intro now cid mid trigger fs cs h
    obtain ⟨path, act⟩ := cs
    cases act with
    | none => exact ⟨_, rfl⟩
    | some a =>
        cases trigger <;> cases a <;>
          first
          | exact ⟨_, rfl⟩
          | exact Bool.noConfusion h
          | (rename_i x y
             cases x <;> cases y <;>
               first
               | exact ⟨_, rfl⟩
               | exact Bool.noConfusion h)
          | (rename_i x
             cases x <;>
               first
               | exact ⟨_, rfl⟩
               | exact Bool.noConfusion h)
  · intro now cid fs cs msg t a e0 ht hcmd hact hacc
    unfold handle_update_content_message messageInner
    simp only [hcmd, ht, hact]
    cases a <;>
      first
      | rfl
      | exact Bool.noConfusion hacc
      | (rename_i x y
         cases x <;> cases y <;>
           first
           | rfl
           | exact Bool.noConfusion hacc
           | (rename_i r
              cases r <;>
                first
                | rfl
                | exact Bool.noConfusion hacc))
      | (rename_i x
         cases x <;>
           first
           | rfl
           | exact Bool.noConfusion hacc
           | (rename_i r
              cases r <;>
                first
                | rfl
                | exact Bool.noConfusion hacc))

/-- C2 amended, witness: the Back trigger in the Explorer state, and the
plain text "hello" in the MkDir(None) state. -/
theorem c2_unsupported_amended_witness :
    inTransitionTable .Back (some .Explorer) = false
    ∧ (∃ e, handleCallbackTrigger 0 1 2 .Back (FileSystem.defaultFs 0)
        ⟨rootPath, some .Explorer⟩
        = (.err e, ⟨rootPath, none⟩, FileSystem.defaultFs 0))
    ∧ acceptsTextReply (.MkDir none) = false
    ∧ handle_update_content_message 0 1 (FileSystem.defaultFs 0)
        ⟨rootPath, some (.MkDir none)⟩ c2Msg
        = (.ok (MessageParams.genericError 1), ⟨rootPath, some (.MkDir none)⟩,
           FileSystem.defaultFs 0) :=
  ⟨rfl,
    c2_unsupported_amended.1 0 1 2 .Back (FileSystem.defaultFs 0)
      ⟨rootPath, some .Explorer⟩ rfl,
    rfl,
    c2_unsupported_amended.2 0 1 (FileSystem.defaultFs 0)
      ⟨rootPath, some (.MkDir none)⟩ c2Msg "hello" (.MkDir none)
      "No entities in message" rfl rfl rfl rfl⟩

/-- C3 counterexample: with pending MoveFile(Some("/Documents/a.txt")) and
the SelectHere trigger, the move is performed (the file appears at /a.txt)
but the session is NOT reset: the post-turn pending action is still
MoveFile(Some(from)), not None. -/
theorem c3_counterexample :
    (handleCallbackTrigger 1 1 9 .CurrentDir c3Fs c3Cs).2.1
      = ⟨rootPath, some (.MoveFile (some c3From))⟩
    ∧ ((handleCallbackTrigger 1 1 9 .CurrentDir c3Fs c3Cs).2.2.get_node
        ⟨true, ["a.txt"]⟩).map FileSystemNode.is_file = Except.ok true
    ∧ (handleCallbackTrigger 1 1 9 .CurrentDir c3Fs c3Cs).2.1.action ≠ none := by
  refine ⟨rfl, rfl, ?_⟩
  have h1 : (handleCallbackTrigger 1 1 9 .CurrentDir c3Fs c3Cs).2.1.action
      = some (.MoveFile (some c3From)) := rfl
  simp [h1]

/-- C3 amended: when the pending action is MoveFile(Some(from)) and the
SelectHere trigger arrives, the handler performs move(from, current_path
joined with basename(from)); when the move succeeds, it replies with the
moved-file message and leaves the session exactly as it was: pending
action still MoveFile(Some(from)) and current_path unchanged (no
reset). -/
theorem c3_move_here_amended :
    ∀ (now : Nat) (chat_id message_id : Int) (fs fs2 : FileSystem)
      (cs : ChatSession) (from_path : FsPath) (name : String),
      cs.action = some (.MoveFile (some from_path)) →
      from_path.file_name = some name →
      fs.mv now from_path (cs.current_path.join name) = (Except.ok (), fs2) →
      handleCallbackTrigger now chat_id message_id .CurrentDir fs cs
        = (.ok ((MessageParams.new_edit chat_id message_id).set_text
            (.movedFileMsg name from_path.render (cs.current_path.join name).render)),
           cs, fs2) := by
  intro now cid mid fs fs2 cs from_path name hact hname hmv
  unfold handleCallbackTrigger callbackQueryInner
  simp only [hact, hname, hmv, runTurn]

/-- C3 amended, witness: moving /Documents/a.txt to the root. -/
theorem c3_move_here_amended_witness :
    c3Cs.action = some (.MoveFile (some c3From))
    ∧ c3From.file_name = some "a.txt"
    ∧ (handleCallbackTrigger 1 1 9 .CurrentDir c3Fs c3Cs).1
        = .ok ((MessageParams.new_edit 1 9).set_text
            (.movedFileMsg "a.txt" c3From.render
              (c3Cs.current_path.join "a.txt").render)) := by
  refine ⟨rfl, rfl, ?_⟩
  have h := c3_move_here_amended 1 1 9 c3Fs
    (c3Fs.mv 1 c3From (c3Cs.current_path.join "a.txt")).2 c3Cs c3From "a.txt"
    rfl rfl rfl
  rw [h]

/-- C4 counterexample: at the end of the attachment, SelectHere, reply
"photo" scenario the file is created at /photo.jpg, but the session does
not reset: the pending action is still SaveFile(Some(node),
Some(FileName)), not None. -/
theorem c4_counterexample :
    c4Step3.2.2.get_node ⟨true, ["photo.jpg"]⟩ = Except.ok c4Node
    ∧ c4Step3.2.1.action = some (.SaveFile (some c4Node) (some .FileName))
    ∧ c4Step3.2.1.action ≠ none := by
  refine ⟨rfl, rfl, ?_⟩
  have h1 : c4Step3.2.1.action = some (.SaveFile (some c4Node) (some .FileName)) := rfl
  simp [h1]

/-- C4 amended: the attachment with no active flow makes the state
SaveFile(Some(node), None); SelectHere makes it SaveFile(Some(node),
Some(FileName)); the reply "photo" with node mime image/jpeg creates the
file at /photo.jpg; current_path is the root throughout, but the pending
action is NOT cleared by the reply: it stays SaveFile(Some(node),
Some(FileName)). -/
theorem c4_save_flow_amended :
    c4Step1.2.1 = ⟨rootPath, some (.SaveFile (some c4Node) none)⟩
    ∧ c4Step2.2.1 = ⟨rootPath, some (.SaveFile (some c4Node) (some .FileName))⟩
    ∧ c4Step3.2.2.get_node ⟨true, ["photo.jpg"]⟩ = Except.ok c4Node
    ∧ c4Step3.2.1.current_path = rootPath
    ∧ c4Step3.2.1.action = some (.SaveFile (some c4Node) (some .FileName)) :=
  ⟨rfl, rfl, rfl, rfl, rfl⟩

end InfiniteCloud
